import Mathlib

/-!
Verification of the EMS lifecycle controller against its specification.

The definitions below are a shallow embedding of the Python sources under
src/lambdas (controller, scheduler, api-handler, health-monitor, discovery).
External I/O (DynamoDB, EC2, EKS, Kubernetes, HTTP) is represented by
explicit oracle values passed in environment records; each embedded
function mirrors the control flow of the Python function of the same name.
-/

set_option maxHeartbeats 1000000

/-! ## Generic string helpers

Python uses substring tests (`needle in haystack`) and `', '.join(...)`.
We implement both over character lists so that membership facts can be
proved by induction.
-/

/-- Boolean test that the first character list is an initial segment of the second. -/
def charListLeads : List Char → List Char → Bool
  | [], _ => true
  | _ :: _, [] => false
  | a :: as, b :: bs => a == b && charListLeads as bs

/-- Boolean substring test on character lists, mirroring the Python `in` operator. -/
def charListHas (needle : List Char) : List Char → Bool
  | [] => charListLeads needle []
  | c :: cs => charListLeads needle (c :: cs) || charListHas needle cs

/-- Boolean substring test on strings, mirroring the Python `in` operator. -/
def strHas (haystack needle : String) : Bool :=
  charListHas needle.data haystack.data

/-- Embedding of the Python expression `', '.join(items)`. -/
def joinComma : List String → String
  | [] => ""
  | [a] => a
  | a :: b :: t => a ++ ", " ++ joinComma (b :: t)

/-! ## Scheduler (src/lambdas/scheduler/lambda_function.py) -/

/-- Table of weekday names used by `is_weekday_included`
(`weekday_names = ['Mon', ..., 'Sun']`, indexed by Python `weekday()`). -/
def weekdayNames : List String :=
  ["Mon", "Tue", "Wed", "Thu", "Fri", "Sat", "Sun"]

/-- Lookup `weekday_names[current_weekday]`. -/
def weekdayName (d : Fin 7) : String :=
  weekdayNames.get ⟨d.val, d.isLt⟩

/-- Embedding of `is_weekday_included(weekdays, current_weekday)`:
an empty weekday list matches every day. -/
def is_weekday_included (weekdays : List String) (d : Fin 7) : Bool :=
  if weekdays.isEmpty then true
  else weekdays.contains (weekdayName d)

/-- A schedule record as stored in DynamoDB or config.yaml: every field may be
absent (`schedule.get(...)` in the source). -/
structure RawSchedule where
  enabled : Option Bool
  onT : Option String
  off : Option String
  weekdays : Option (List String)
deriving Repr, DecidableEq

/-- The normalized schedule produced by `get_app_schedule`. -/
structure Schedule where
  enabled : Bool
  onT : Option String
  off : Option String
  weekdays : List String
deriving Repr, DecidableEq

/-- Embedding of the dictionary built by `get_app_schedule` from a raw item:
`enabled = schedule.get('enabled', False)`, `weekdays = schedule.get('weekdays', [])`. -/
def schedule_from_raw (item : RawSchedule) : Schedule :=
  { enabled := item.enabled.getD false
    onT := item.onT
    off := item.off
    weekdays := item.weekdays.getD [] }

/-- Embedding of `get_app_schedule`: DynamoDB override first, then the
config.yaml fallback, both read through `schedule_from_raw`. -/
def get_app_schedule (dbItem cfgItem : Option RawSchedule) : Option Schedule :=
  match dbItem with
  | some it => some (schedule_from_raw it)
  | none =>
    match cfgItem with
    | some it => some (schedule_from_raw it)
    | none => none

/-- Embedding of `validate_time_format` / `parse_time_ist`: accept `HH:MM`
(24-hour, per the regex) and return minutes after midnight; `none` models the
raised `ValueError`. -/
def parse_time_minutes (s : String) : Option Nat :=
  match s.toList with
  | [h1, h2, c, m1, m2] =>
    if (((h1 == '0' || h1 == '1') && h2.isDigit) ||
        (h1 == '2' && ('0' ≤ h2 && h2 ≤ '3'))) &&
       c == ':' &&
       (('0' ≤ m1 && m1 ≤ '5') && m2.isDigit) then
      some (((h1.toNat - 48) * 10 + (h2.toNat - 48)) * 60 +
            ((m1.toNat - 48) * 10 + (m2.toNat - 48)))
    else none
  | _ => none

/-- Embedding of `should_trigger_action(app_name, schedule, current_time_ist)`.
`wd` is the IST weekday, `nowSec` the IST time as seconds after midnight, and
`isUp` the value returned by `check_app_status`. Returns the `(action, reason)`
pair, `none` for `(None, None)`. -/
def should_trigger_action (sched : Option Schedule) (wd : Fin 7) (nowSec : Nat)
    (isUp : Bool) : Option (String × String) :=
  match sched with
  | none => none
  | some s =>
    if !s.enabled then none
    else
      match s.onT, s.off with
      | some onS, some offS =>
        if onS == "" || offS == "" then none
        else if !is_weekday_included s.weekdays wd then none
        else
          match parse_time_minutes onS, parse_time_minutes offS with
          | some onM, some offM =>
            if onM * 60 ≤ nowSec && nowSec < onM * 60 + 300 && !isUp then
              some ("start", "Scheduled ON time " ++ onS ++ " IST reached")
            else if offM * 60 ≤ nowSec && nowSec < offM * 60 + 300 && isUp then
              some ("stop", "Scheduled OFF time " ++ offS ++ " IST reached")
            else none
          | _, _ => none
      | _, _ => none

/-- Outcome of the `requests.post` call made by `trigger_start` / `trigger_stop`. -/
inductive PostOutcome
  | status (code : Nat)
  | netError
deriving Repr, DecidableEq

/-- Embedding of `trigger_start`: the POST to the gateway succeeds for the
scheduler only when the response code is exactly 200. -/
def trigger_start (apiUrlSet : Bool) (resp : PostOutcome) : Bool :=
  if !apiUrlSet then false
  else
    match resp with
    | PostOutcome.status c => c == 200
    | PostOutcome.netError => false

/-- Embedding of `trigger_stop`, identical in shape to `trigger_start`. -/
def trigger_stop (apiUrlSet : Bool) (resp : PostOutcome) : Bool :=
  if !apiUrlSet then false
  else
    match resp with
    | PostOutcome.status c => c == 200
    | PostOutcome.netError => false

/-- Embedding of the action block of the scheduler `lambda_handler`
(lines 277-291): `log_operation` is called exactly when the trigger call
reported success, so the result is whether an operation log entry is written. -/
def scheduler_logs_action (apiUrlSet : Bool) (action : String)
    (resp : PostOutcome) : Bool :=
  if action == "start" then trigger_start apiUrlSet resp
  else if action == "stop" then trigger_stop apiUrlSet resp
  else false

/-! ## Controller dispatcher (src/lambdas/controller/lambda_function.py, lambda_handler) -/

/-- Embedding of the `POST /start` branch of the controller `lambda_handler`:
dry runs return 200 with a preview, otherwise the handler re-invokes itself
asynchronously and acknowledges with 202 (500 when the async invoke raises). -/
def controller_dispatch_start (dryRun invokeOk : Bool) : Nat :=
  if dryRun then 200
  else if invokeOk then 202
  else 500

/-- Embedding of the `POST /stop` branch of the controller `lambda_handler`:
the async self-invocation is acknowledged with 202 (500 when it raises). -/
def controller_dispatch_stop (invokeOk : Bool) : Nat :=
  if invokeOk then 202 else 500

/-! ## Controller shared-resource resolver (src/lambdas/controller/lambda_function.py) -/

/-- One entry of the persisted `shared_resources` annotation written by the
discovery lambda (`{'host': ..., 'instance_id': ..., 'linked_apps': [...]}`). -/
structure SharedEntry where
  host : Option String
  instanceId : Option String
  linkedApps : List String
deriving Repr, DecidableEq

/-- The persisted `shared_resources` map with its `postgres` and `neo4j` lists. -/
structure SharedResources where
  postgres : List SharedEntry
  neo4j : List SharedEntry
deriving Repr, DecidableEq

/-- A registry item as read by the controller (`get_app_from_registry` /
`table.scan()`): the fields the controller actually touches. -/
structure AppRecord where
  appName : String
  namespc : String
  hostnames : List String
  postgresHost : Option String
  neo4jHost : Option String
  sharedResources : SharedResources
deriving Repr, DecidableEq

/-- Outcome of one `requests.head(url, ...)` call. -/
inductive HeadOutcome
  | ok (code : Nat) (latencyMs : Nat)
  | timeout
  | connError
  | sslError
  | exc
deriving Repr, DecidableEq

/-- Oracles for the I/O performed by the resolver: the registry scan used by
`get_sharing_applications`, per-app registry reads (`get_app_from_registry`,
which re-raises on error, modelled by `Except.error`), and HTTP HEAD probes
keyed by URL. -/
structure CotenantEnv where
  scanItems : Except Unit (List AppRecord)
  getApp : String → Except Unit (Option AppRecord)
  probe : String → HeadOutcome

/-- `True` exactly when the HEAD outcome is an HTTP 200 response
(the only branch on which `check_app_status_live` returns `True`). -/
def head_is_200 : HeadOutcome → Bool
  | HeadOutcome.ok code _ => code == 200
  | _ => false

/-- Embedding of `get_sharing_applications(resource_host, resource_type,
current_app_name)`: scan the registry for other records whose
`<kind>_host` equals the endpoint; any scan error yields `[]`. -/
def get_sharing_applications (resourceHost resourceType currentApp : String)
    (env : CotenantEnv) : List String :=
  match env.scanItems with
  | Except.error _ => []
  | Except.ok items =>
    items.filterMap fun item =>
      if item.appName == currentApp then none
      else if resourceType == "postgres" then
        if item.postgresHost == some resourceHost then some item.appName else none
      else if resourceType == "neo4j" then
        if item.neo4jHost == some resourceHost then some item.appName else none
      else none

/-- Embedding of `check_app_status_live(app_name)`: registry-read errors hit
the conservative outer handler and count as UP; a missing record or missing
hostname counts as DOWN; otherwise the app is UP iff the HTTPS or HTTP HEAD
probe of the primary hostname returns 200 (probe timeouts and connection
errors merely move on to the next URL and end in DOWN). -/
def check_app_status_live (appName : String) (env : CotenantEnv) : Bool :=
  match env.getApp appName with
  | Except.error _ => true
  | Except.ok none => false
  | Except.ok (some app) =>
    match app.hostnames with
    | [] => false
    | h :: _ =>
      if h == "" then false
      else
        head_is_200 (env.probe ("https://" ++ h)) ||
        head_is_200 (env.probe ("http://" ++ h))

/-- Embedding of `are_any_apps_running(app_list)`. -/
def are_any_apps_running (appList : List String) (env : CotenantEnv) : Bool :=
  appList.any fun a => check_app_status_live a env

/-- Embedding of `is_shared_resource_in_use(resource_host, resource_type,
current_app_name)`: no sharer means not in use, else in use iff any sharer is
live. -/
def is_shared_resource_in_use (resourceHost resourceType currentApp : String)
    (env : CotenantEnv) : Bool :=
  let sharing := get_sharing_applications resourceHost resourceType currentApp env
  if sharing.isEmpty then false
  else are_any_apps_running sharing env

/-- Embedding of `is_database_shared(app_data, db_type)`: the database counts
as shared iff the persisted `shared_resources` annotation lists its host. -/
def is_database_shared (app : AppRecord) (dbType : String) : Bool :=
  if dbType == "postgres" then
    match app.postgresHost with
    | none => false
    | some h => app.sharedResources.postgres.any fun e => e.host == some h
  else if dbType == "neo4j" then
    match app.neo4jHost with
    | none => false
    | some h => app.sharedResources.neo4j.any fun e => e.host == some h
  else false

/-- The `db_identifier` expression of `check_shared_resources_blocking`:
`pg.get('host') or pg.get('instance_id', 'Unknown')`. -/
def shared_entry_identifier (e : SharedEntry) : String :=
  match e.host with
  | some h => if h == "" then e.instanceId.getD "Unknown" else h
  | none => e.instanceId.getD "Unknown"

/-- The warning text built by `check_shared_resources_blocking` for one entry. -/
def shared_block_message (e : SharedEntry) : String :=
  "Database " ++ shared_entry_identifier e ++ " is shared with " ++
    joinComma e.linkedApps ++ ". Cannot be stopped safely."

/-- Embedding of `check_shared_resources_blocking(app_data)`: one message per
persisted shared postgres or neo4j entry. -/
def check_shared_resources_blocking (app : AppRecord) : List String :=
  app.sharedResources.postgres.map shared_block_message ++
    app.sharedResources.neo4j.map shared_block_message

/-! ## Stop orchestrator (src/lambdas/controller/lambda_function.py, stop_application) -/

/-- Nodegroup defaults from the authoritative mapping
(`get_nodegroup_defaults`). -/
structure NodegroupDefaults where
  nodegroup : String
  desired : Nat
  minSize : Nat
  maxSize : Nat
deriving Repr, DecidableEq

/-- Oracles for the I/O performed by `stop_application` beyond the resolver:
scaling the namespace workloads to zero, the pod-drain wait, the nodegroup
mapping and scaling call, and EC2 lookup/stop keyed by private IP and
instance id. `Except.error` carries the exception text. -/
structure StopEnv where
  cotenv : CotenantEnv
  scaleWorkloads : Except String Unit
  podsTerminated : Bool
  nodegroupDefaults : Option NodegroupDefaults
  scaleNodegroup : Except String Unit
  ec2ByIp : String → Except String (List String)
  stopVm : String → Except String Unit

/-- The result of one run of `stop_application`, keeping the observable
effects the claims are about: warnings, accumulated errors, every
`stop_ec2_instance` call issued (split by DB family), and the sequence of
registry `update_item` writes (each write is its list of SET clauses). -/
structure StopOutcome where
  found : Bool
  warnings : List String
  errors : List String
  pgStopCalls : List String
  neoStopCalls : List String
  stopCalls : List String
  registryWrites : List (List (String × String))
  success : Bool
deriving Repr, DecidableEq

/-- The per-instance loop of stop step 4/5: each found instance gets a
`stop_ec2_instance` call; a raise inside the call appends an error, a
successful call bumps the stopped counter. Returns
(calls issued, errors, stopped count). -/
def stop_ids_loop (dbLabel host : String) (env : StopEnv) :
    List String → List String × List String × Nat
  | [] => ([], [], 0)
  | id :: rest =>
    match env.stopVm id with
    | Except.ok _ =>
      let r := stop_ids_loop dbLabel host env rest
      (id :: r.1, r.2.1, r.2.2 + 1)
    | Except.error msg =>
      let r := stop_ids_loop dbLabel host env rest
      (id :: r.1,
       ("Failed to stop " ++ dbLabel ++ " " ++ host ++ ": " ++ msg) :: r.2.1,
       r.2.2)

/-- The `ec2.describe_instances`-by-private-IP block shared by the dedicated
and the idle-shared branches of stop steps 4 and 5. -/
def stop_db_instances (dbLabel host : String) (env : StopEnv) :
    List String × List String × Nat :=
  match env.ec2ByIp host with
  | Except.error msg =>
    ([], ["Failed to find " ++ dbLabel ++ " instance for " ++ host ++ ": " ++ msg], 0)
  | Except.ok ids => stop_ids_loop dbLabel host env ids

/-- Stop step 4 (PostgreSQL): consult the persisted sharing annotation; a
shared-and-in-use database is skipped with a warning, anything else has its
EC2 instance stopped. Returns (warnings, errors, stop calls, stopped count). -/
def stop_postgres_step (appName : String) (app : AppRecord) (env : StopEnv) :
    List String × List String × List String × Nat :=
  match app.postgresHost with
  | none => ([], [], [], 0)
  | some h =>
    if is_database_shared app "postgres" then
      if is_shared_resource_in_use h "postgres" appName env.cotenv then
        (["PostgreSQL " ++ h ++ " is shared with active applications - database NOT stopped"],
         [], [], 0)
      else
        let r := stop_db_instances "postgres" h env
        ([], r.2.1, r.1, r.2.2)
    else
      let r := stop_db_instances "postgres" h env
      ([], r.2.1, r.1, r.2.2)

/-- Stop step 5 (Neo4j), identical in shape to the PostgreSQL step. -/
def stop_neo4j_step (appName : String) (app : AppRecord) (env : StopEnv) :
    List String × List String × List String × Nat :=
  match app.neo4jHost with
  | none => ([], [], [], 0)
  | some h =>
    if is_database_shared app "neo4j" then
      if is_shared_resource_in_use h "neo4j" appName env.cotenv then
        (["Neo4j " ++ h ++ " is shared with active applications - database NOT stopped"],
         [], [], 0)
      else
        let r := stop_db_instances "neo4j" h env
        ([], r.2.1, r.1, r.2.2)
    else
      let r := stop_db_instances "neo4j" h env
      ([], r.2.1, r.1, r.2.2)

/-- Stop step 1 error accumulation: a raise inside
`scale_kubernetes_workloads` is caught and recorded. -/
def stop_step1_errors (env : StopEnv) : List String :=
  match env.scaleWorkloads with
  | Except.ok _ => []
  | Except.error msg => ["Failed to scale Kubernetes workloads: " ++ msg]

/-- Stop step 2 warning: a drain timeout produces a warning and the run
proceeds. -/
def stop_drain_warnings (env : StopEnv) : List String :=
  if env.podsTerminated then []
  else ["Some pods may not have terminated gracefully"]

/-- Stop step 3 error accumulation: without an assigned nodegroup the step is
skipped; a raising `scale_nodegroup` is recorded as an error. -/
def stop_ng_errors (env : StopEnv) : List String :=
  match env.nodegroupDefaults with
  | none => []
  | some ngd =>
    match env.scaleNodegroup with
    | Except.ok _ => []
    | Except.error msg =>
      ["Failed to scale nodegroup " ++ ngd.nodegroup ++ ": " ++ msg]

/-- All accumulated errors of a stop run that found its application. -/
def stop_all_errors (appName : String) (app : AppRecord) (env : StopEnv) :
    List String :=
  stop_step1_errors env ++ stop_ng_errors env ++
    (stop_postgres_step appName app env).2.1 ++
    (stop_neo4j_step appName app env).2.1

/-- The outcome of `stop_application` once the registry lookup has found the
application: warnings in emission order (blocking messages, drain warning,
postgres step, neo4j step), the unconditional `nodegroup_state` hint write,
the conditional `postgres_state` / `neo4j_state` hint writes, and the final
unconditional `status` / `final_app_status` write. -/
def stop_found_outcome (appName : String) (app : AppRecord) (env : StopEnv) :
    StopOutcome :=
  { found := true
    warnings := check_shared_resources_blocking app ++ stop_drain_warnings env ++
      (stop_postgres_step appName app env).1 ++ (stop_neo4j_step appName app env).1
    errors := stop_all_errors appName app env
    pgStopCalls := (stop_postgres_step appName app env).2.2.1
    neoStopCalls := (stop_neo4j_step appName app env).2.2.1
    stopCalls := (stop_postgres_step appName app env).2.2.1 ++
      (stop_neo4j_step appName app env).2.2.1
    registryWrites := [[("nodegroup_state", "stopped")]] ++
      (if (stop_postgres_step appName app env).2.2.2 > 0 then
        [[("postgres_state", "stopped")]] else []) ++
      (if (stop_neo4j_step appName app env).2.2.2 > 0 then
        [[("neo4j_state", "stopped")]] else []) ++
      [[("status", "DOWN"), ("final_app_status", "DOWN")]]
    success := (stop_all_errors appName app env).isEmpty }

/-- Embedding of `stop_application(app_name)`: registry lookup, blocking
warnings, workload scale-down, pod drain, nodegroup scale-down with its
unconditional `nodegroup_state` hint write, the two DB steps with their
conditional hint writes, and the final unconditional
`status`/`final_app_status` write. A raising registry read propagates
(`Except.error`). -/
def stop_application (appName : String) (env : StopEnv) :
    Except Unit StopOutcome :=
  match env.cotenv.getApp appName with
  | Except.error e => Except.error e
  | Except.ok none =>
    Except.ok
      { found := false, warnings := [], errors := [], pgStopCalls := [],
        neoStopCalls := [], stopCalls := [], registryWrites := [],
        success := false }
  | Except.ok (some app) => Except.ok (stop_found_outcome appName app env)

/-! ## Start orchestrator step 5 (start_application, workload scaling) -/

/-- A Deployment or StatefulSet as listed in the namespace;
`replicas` is `spec.replicas` and may be null (`or 0` in the source). -/
structure Workload where
  name : String
  replicas : Option Nat
deriving Repr, DecidableEq

/-- The per-workload target of start step 5:
`target_replicas = max(1, current_replicas)`. -/
def start_scale_target (current : Nat) : Nat := max 1 current

/-- Embedding of the deployment / statefulset loop of start step 5: a workload
already at its target is skipped, otherwise a scale patch
`(name, target)` is issued. -/
def start_scale_patches (ws : List Workload) : List (String × Nat) :=
  match ws with
  | [] => []
  | w :: rest =>
    let current := w.replicas.getD 0
    let target := start_scale_target current
    if current == target then start_scale_patches rest
    else (w.name, target) :: start_scale_patches rest

/-! ## API handler live HTTP probe (src/lambdas/api-handler/lambda_function.py) -/

/-- Python `hostname.startswith('http')`, computed on character lists. -/
def str_starts_with (s pre : String) : Bool :=
  charListLeads pre.data s.data

/-- Python slicing `s[:100]`, computed on character lists. -/
def str_first100 (s : String) : String :=
  String.mk (s.data.take 100)

/-- The `urls_to_try` list of `check_http_status_live`: a hostname that
already starts with `http` is used verbatim, otherwise HTTPS then HTTP. -/
def http_urls (hostname : String) : List String :=
  if str_starts_with hostname "http" then [hostname]
  else ["https://" ++ hostname, "http://" ++ hostname]

/-- The URL loop of `check_http_status_live`: a response returns immediately
(UP only on 200); timeouts and connection errors fall through to the next URL
and produce DOWN on the last one; SSL errors always fall through. -/
def http_check_loop (probe : String → HeadOutcome) :
    List String → String × Nat × Option Nat
  | [] => ("DOWN", 0, none)
  | u :: rest =>
    match probe u with
    | HeadOutcome.ok code lat =>
      if code == 200 then ("UP", code, some lat) else ("DOWN", code, some lat)
    | HeadOutcome.timeout =>
      if rest.isEmpty then ("DOWN", 0, some 5000) else http_check_loop probe rest
    | HeadOutcome.connError =>
      if rest.isEmpty then ("DOWN", 0, none) else http_check_loop probe rest
    | HeadOutcome.sslError => http_check_loop probe rest
    | HeadOutcome.exc =>
      if rest.isEmpty then ("DOWN", 0, none) else http_check_loop probe rest

/-- Embedding of `check_http_status_live(hostname)` returning
`(status, http_code, latency_ms)`; a missing or empty hostname is DOWN. -/
def check_http_status_live (hostname : Option String)
    (probe : String → HeadOutcome) : String × Nat × Option Nat :=
  match hostname with
  | none => ("DOWN", 0, none)
  | some h =>
    if h == "" then ("DOWN", 0, none)
    else http_check_loop probe (http_urls h)

/-! ## Health monitor verdict (src/lambdas/health-monitor/lambda_function.py) -/

/-- The acceptance set named by the specification for the HTTP verdict
(default configuration). Stated from the specification text, to be compared
with the hardcoded behaviour of the source. -/
def spec_default_acceptance : List Nat := [200]

/-- Embedding of the final status determination of `determine_app_status`
(lines 347-367): UP exactly on HTTP 200 or 405, component states ignored. -/
def determine_final_status (httpStatusCode : Nat) : String :=
  if httpStatusCode == 200 || httpStatusCode == 405 then "UP" else "DOWN"

/-- Embedding of the return value of `determine_app_status`: the final
verdict, the HTTP code, and the component states gathered for diagnostics. -/
def determine_app_status (httpStatusCode : Nat)
    (postgresState neo4jState nodegroupState : String) :
    String × Nat × (String × String × String) :=
  (determine_final_status httpStatusCode, httpStatusCode,
    (postgresState, neo4jState, nodegroupState))

/-! ## API handler pod probe and aggregation (src/lambdas/api-handler/lambda_function.py) -/

/-- A container status as read from the Kubernetes API: the waiting reason
(present iff the container is in a waiting state), the terminated reason
(present iff terminated), and the restart count. -/
structure ContainerStatus where
  waitingReason : Option String
  terminatedReason : Option String
  restartCount : Nat
deriving Repr, DecidableEq

/-- A pod as read from the Kubernetes API, restricted to the fields the
classifier touches. -/
structure Pod where
  name : String
  phase : String
  containerStatuses : List ContainerStatus
  initContainerStatuses : List ContainerStatus
deriving Repr, DecidableEq

/-- The pod-tally document returned by `check_pod_state_live` and embedded in
the composite status; pod lists are kept as pod names. -/
structure PodsDoc where
  running : Nat
  pending : Nat
  crashloop : Nat
  total : Nat
  runningList : List String
  pendingList : List String
  crashloopList : List String
  error : Option String
  warning : Option String
deriving Repr, DecidableEq

/-- The all-zero pod tally used by every fallback branch. -/
def pods_zero (err wrn : Option String) : PodsDoc :=
  { running := 0, pending := 0, crashloop := 0, total := 0,
    runningList := [], pendingList := [], crashloopList := [],
    error := err, warning := wrn }

/-- The main-container crashloop scan of `check_pod_state_live`: a matching
waiting or terminated reason returns immediately (the `break`), a restart
count above 5 marks the pod without breaking unless already marked. -/
def crashloop_scan : List ContainerStatus → Option (String × Nat) →
    Option (String × Nat)
  | [], acc => acc
  | cs :: rest, acc =>
    match cs.waitingReason with
    | some r =>
      if strHas r "CrashLoopBackOff" || strHas r "ImagePullBackOff" ||
         strHas r "ErrImagePull" then
        some (r, cs.restartCount)
      else
        crashloop_scan rest
          (if cs.restartCount > 5 && acc.isNone then
            some ("High restart count: " ++ toString cs.restartCount,
              cs.restartCount)
           else acc)
    | none =>
      match cs.terminatedReason with
      | some r =>
        if r == "Error" || r == "CrashLoopBackOff" then
          some (r, cs.restartCount)
        else
          crashloop_scan rest
            (if cs.restartCount > 5 && acc.isNone then
              some ("High restart count: " ++ toString cs.restartCount,
                cs.restartCount)
             else acc)
      | none =>
        crashloop_scan rest
          (if cs.restartCount > 5 && acc.isNone then
            some ("High restart count: " ++ toString cs.restartCount,
              cs.restartCount)
           else acc)

/-- The init-container scan, consulted only when the main scan found
nothing. -/
def init_container_scan : List ContainerStatus → Option (String × Nat)
  | [] => none
  | cs :: rest =>
    match cs.waitingReason with
    | some r =>
      if strHas r "CrashLoopBackOff" || strHas r "ImagePullBackOff" then
        some (r, cs.restartCount)
      else init_container_scan rest
    | none => init_container_scan rest

/-- Whether one pod is classified as crashlooping. -/
def pod_is_crashloop (p : Pod) : Bool :=
  match crashloop_scan p.containerStatuses none with
  | some _ => true
  | none =>
    match init_container_scan p.initContainerStatuses with
    | some _ => true
    | none => false

/-- The per-pod tally fold of the success path of `check_pod_state_live`. -/
def pods_tally (pods : List Pod) : PodsDoc :=
  { running := (pods.filter fun p => p.phase == "Running").length
    pending := (pods.filter fun p => p.phase == "Pending").length
    crashloop := (pods.filter pod_is_crashloop).length
    total := pods.length
    runningList := (pods.filter fun p => p.phase == "Running").map Pod.name
    pendingList := (pods.filter fun p => p.phase == "Pending").map Pod.name
    crashloopList := (pods.filter pod_is_crashloop).map Pod.name
    error := none
    warning := none }

/-- The error raised by `list_namespaced_pod`: the HTTP status attribute when
present, and the exception text. -/
structure K8sApiError where
  status : Option Nat
  msg : String
deriving Repr, DecidableEq

/-- The RBAC test of `check_pod_state_live`: status 401/403 or the markers in
the exception text. -/
def k8s_error_is_rbac (e : K8sApiError) : Bool :=
  e.status == some 401 || e.status == some 403 ||
    strHas e.msg "401" || strHas e.msg "403" ||
    strHas e.msg "Unauthorized" || strHas e.msg "Forbidden"

/-- The `error_status or 401` expression of the RBAC error message. -/
def k8s_error_status_text (e : K8sApiError) : String :=
  match e.status with
  | some n => if n == 0 then "401" else toString n
  | none => "401"

/-- Embedding of `check_pod_state_live(namespace)`:
empty namespace, unavailable client, and listing errors each yield a zero
tally carrying an error string; a raise while constructing the CoreV1Api
client (`clientOk = false`) escapes to the generic handler at the bottom of
the function, which substitutes the zero tally WITHOUT an error string. -/
def check_pod_state_live (namespc : String) (k8sOk clientOk : Bool)
    (listResult : Except K8sApiError (List Pod)) : PodsDoc :=
  if namespc == "" then
    pods_zero (some "Namespace is empty") none
  else if !k8sOk then
    pods_zero (some "Kubernetes client not initialized")
      (some "Kubernetes client failed to initialize. Check EKS cluster access and IAM permissions.")
  else if !clientOk then
    pods_zero none none
  else
    match listResult with
    | Except.error e =>
      if k8s_error_is_rbac e then
        pods_zero
          (some ("RBAC permission denied (HTTP " ++ k8s_error_status_text e ++ ")"))
          (some ("No permission to list pods in namespace " ++ namespc ++
            ". See docs/POD_RBAC_SETUP.md"))
      else
        pods_zero (some ("Kubernetes API error: " ++ str_first100 e.msg)) none
    | Except.ok pods => pods_tally pods

/-- Result of `check_db_state_live` for one database endpoint. -/
structure DbResult where
  state : String
  instanceId : Option String
  isShared : Bool
  sharedWith : List String
deriving Repr, DecidableEq

/-- The default substituted when a database probe future raises. -/
def db_result_default : DbResult :=
  { state := "stopped", instanceId := none, isShared := false, sharedWith := [] }

/-- The composite status document assembled by `get_app_live_status`. -/
structure CompositeStatus where
  name : String
  httpStatus : String
  httpCode : Nat
  httpLatencyMs : Option Nat
  postgresState : String
  postgresShared : Bool
  postgresSharedWith : List String
  neo4jState : String
  neo4jShared : Bool
  neo4jSharedWith : List String
  pods : PodsDoc
deriving Repr, DecidableEq

/-- Embedding of the result-gathering block of `get_app_live_status`
(lines 803-852): each probe family is an `Except` mirroring
`future.result(timeout)`; on failure the family is replaced by its safe
default, and a failed pod future gets the zero tally carrying a
`Pod check failed` error string. -/
def get_app_live_status (appName : String)
    (pgF neoF : Except String DbResult)
    (httpF : Except String (String × Nat × Option Nat))
    (podsF : Except String PodsDoc) : CompositeStatus :=
  let pg := match pgF with
    | Except.ok r => r
    | Except.error _ => db_result_default
  let neo := match neoF with
    | Except.ok r => r
    | Except.error _ => db_result_default
  let http := match httpF with
    | Except.ok t => t
    | Except.error _ => ("DOWN", 0, none)
  let pods := match podsF with
    | Except.ok p => p
    | Except.error e => pods_zero (some ("Pod check failed: " ++ str_first100 e)) none
  { name := appName
    httpStatus := http.1
    httpCode := http.2.1
    httpLatencyMs := http.2.2
    postgresState := pg.state
    postgresShared := pg.isShared
    postgresSharedWith := pg.sharedWith
    neo4jState := neo.state
    neo4jShared := neo.isShared
    neo4jSharedWith := neo.sharedWith
    pods := pods }

/-! ## Registry write paths (src/lambdas/discovery and controller) -/

/-- A DynamoDB registry item as a schemaless record: every non-key attribute
may be absent. Only the attributes the claims touch are kept. -/
structure DynItem where
  appName : String
  namespc : Option String
  hostnames : Option (List String)
  status : Option String
deriving Repr, DecidableEq

/-- DynamoDB `put_item`: replace any item with the same key, else insert. -/
def dyn_put_item (reg : List DynItem) (item : DynItem) : List DynItem :=
  item :: reg.filter fun r => !(r.appName == item.appName)

/-- DynamoDB `update_item` with `SET #status = :status`: updates the item in
place when the key exists and otherwise CREATES a new item carrying only the
key and the updated attribute (upsert semantics). This is the write performed
by the controller function `update_app_status`. -/
def update_app_status (reg : List DynItem) (key status : String) :
    List DynItem :=
  if reg.any fun r => r.appName == key then
    reg.map fun r =>
      if r.appName == key then { r with status := some status } else r
  else
    { appName := key, namespc := none, hostnames := none,
      status := some status } :: reg

/-- The `sorted(list(set(hostnames)))` normalization of `update_registry`. -/
def dedup_sort_hostnames (hs : List String) : List String :=
  hs.toFinset.sort (fun a b => a ≤ b)

/-- Embedding of the discovery function `update_registry`: an empty hostname
list is rejected before any write (`return False`); otherwise the full item is
put, with `status` computed from the nodegroup desired sizes. Returns the
success flag and the new registry contents. -/
def update_registry (reg : List DynItem) (appName namespc : String)
    (hostnames : List String) (ngDesireds : List Nat) :
    Bool × List DynItem :=
  let hs := dedup_sort_hostnames hostnames
  if hs.isEmpty then (false, reg)
  else
    let status := if ngDesireds.any fun d => d > 0 then "UP" else "DOWN"
    (true,
     dyn_put_item reg
       { appName := appName, namespc := some namespc,
         hostnames := some hs, status := some status })

/-- Registry record of an application `alpha` with a postgres host and an
empty persisted `shared_resources` annotation. -/
def appA : AppRecord :=
  { appName := "alpha.example.com", namespc := "ns-a",
    hostnames := ["alpha.example.com"], postgresHost := some "10.0.0.5",
    neo4jHost := none, sharedResources := { postgres := [], neo4j := [] } }

/-- Registry record of a co-tenant `beta` referencing the same postgres host. -/
def appB : AppRecord :=
  { appName := "beta.example.com", namespc := "ns-b",
    hostnames := ["beta.example.com"], postgresHost := some "10.0.0.5",
    neo4jHost := none, sharedResources := { postgres := [], neo4j := [] } }

/-- Resolver environment in which the co-tenant `beta` answers its HTTPS
probe with 200. -/
def cotenvLiveB : CotenantEnv :=
  { scanItems := Except.ok [appA, appB]
    getApp := fun n =>
      if n == "alpha.example.com" then Except.ok (some appA)
      else if n == "beta.example.com" then Except.ok (some appB)
      else Except.ok none
    probe := fun u =>
      if u == "https://beta.example.com" then HeadOutcome.ok 200 15
      else HeadOutcome.connError }

/-- Stop environment for `alpha` over `cotenvLiveB`, with the postgres host
resolving to one EC2 instance. -/
def envC1 : StopEnv :=
  { cotenv := cotenvLiveB, scaleWorkloads := Except.ok (),
    podsTerminated := true, nodegroupDefaults := none,
    scaleNodegroup := Except.ok ()
    ec2ByIp := fun ip =>
      if ip == "10.0.0.5" then Except.ok ["i-0pgdb"] else Except.ok []
    stopVm := fun _ => Except.ok () }

/-- Resolver environment identical to `cotenvLiveB` except that every HEAD
probe times out. -/
def cotenvTimeout : CotenantEnv :=
  { scanItems := Except.ok [appA, appB]
    getApp := fun n =>
      if n == "alpha.example.com" then Except.ok (some appA)
      else if n == "beta.example.com" then Except.ok (some appB)
      else Except.ok none
    probe := fun _ => HeadOutcome.timeout }

/-- The persisted sharing annotation entry listing `beta` as co-tenant. -/
def entryW : SharedEntry :=
  { host := some "10.0.0.5", instanceId := none,
    linkedApps := ["beta.example.com"] }

/-- `alpha` with its shared postgres host recorded in `shared_resources`. -/
def appAshared : AppRecord :=
  { appName := "alpha.example.com", namespc := "ns-a",
    hostnames := ["alpha.example.com"], postgresHost := some "10.0.0.5",
    neo4jHost := none, sharedResources := { postgres := [entryW], neo4j := [] } }

/-- Stop environment for the annotated `alpha` with `beta` live. -/
def envC1w : StopEnv :=
  { cotenv :=
      { scanItems := Except.ok [appAshared, appB]
        getApp := fun n =>
          if n == "alpha.example.com" then Except.ok (some appAshared)
          else if n == "beta.example.com" then Except.ok (some appB)
          else Except.ok none
        probe := fun u =>
          if u == "https://beta.example.com" then HeadOutcome.ok 200 15
          else HeadOutcome.connError }
    scaleWorkloads := Except.ok (), podsTerminated := true,
    nodegroupDefaults := none, scaleNodegroup := Except.ok ()
    ec2ByIp := fun ip =>
      if ip == "10.0.0.5" then Except.ok ["i-0pgdb"] else Except.ok []
    stopVm := fun _ => Except.ok () }

/-- Registry record with no databases, used as a plain DOWN co-tenant. -/
def appGamma : AppRecord :=
  { appName := "gamma.example.com", namespc := "ns-g",
    hostnames := ["gamma.example.com"], postgresHost := none,
    neo4jHost := none, sharedResources := { postgres := [], neo4j := [] } }

/-- Resolver environment in which one registry read raises and another
returns an app whose probes all fail at the connection level. -/
def cotenvMixed : CotenantEnv :=
  { scanItems := Except.ok []
    getApp := fun n =>
      if n == "err.example.com" then Except.error ()
      else if n == "gamma.example.com" then Except.ok (some appGamma)
      else Except.ok none
    probe := fun _ => HeadOutcome.connError }

/-- Stop environment in which workload scale-down raises, so the run records
an error before reaching the registry status write. -/
def envC9 : StopEnv :=
  { cotenv :=
      { scanItems := Except.ok []
        getApp := fun n =>
          if n == "alpha.example.com" then Except.ok (some appA)
          else Except.ok none
        probe := fun _ => HeadOutcome.connError }
    scaleWorkloads := Except.error "connection reset by peer"
    podsTerminated := false, nodegroupDefaults := none,
    scaleNodegroup := Except.ok ()
    ec2ByIp := fun _ => Except.ok [], stopVm := fun _ => Except.ok () }

/-! ## Theorems -/

theorem charListLeads_append (n suf : List Char) :
    charListLeads n (n ++ suf) = true := by
  induction n with
  | nil => rfl
  | cons a as ih => simp [charListLeads, ih]

theorem charListHas_append (pre n suf : List Char) :
    charListHas n (pre ++ (n ++ suf)) = true := by
  induction pre with
  | nil =>
    cases h : n ++ suf with
    | nil =>
      have hn : n = [] := by
        cases n with
        | nil => rfl
        | cons a as => simp at h
      simp [charListHas, hn, charListLeads]
    | cons c cs =>
      simp only [List.nil_append, charListHas]
      rw [← h, charListLeads_append]
      simp
  | cons c cs ih =>
    simp only [List.cons_append, charListHas, List.append_eq]
    rw [ih]
    simp

theorem joinComma_split (l : List String) (b : String) (hb : b ∈ l) :
    ∃ p s : List Char, (joinComma l).data = p ++ (b.data ++ s) := by
  induction l with
  | nil => cases hb
  | cons a t ih =>
    rcases List.mem_cons.mp hb with h | h
    · subst h
      cases t with
      | nil => exact ⟨[], [], by simp [joinComma]⟩
      | cons c cs =>
        refine ⟨[], (", " ++ joinComma (c :: cs)).data, ?_⟩
        simp [joinComma, String.data_append]
    · cases t with
      | nil => cases h
      | cons c cs =>
        rcases ih h with ⟨p, s, hp⟩
        refine ⟨(a ++ ", ").data ++ p, s, ?_⟩
        simp [joinComma, String.data_append, hp]

theorem strHas_of_split (hay b : String) (p s : List Char)
    (h : hay.data = p ++ (b.data ++ s)) : strHas hay b = true := by
  unfold strHas
  rw [h]
  exact charListHas_append p b.data s

/-- C4: start step 5 sets every Deployment or StatefulSet to
`max(1, current)` replicas: the issued patches are exactly the zero-replica
workloads being set to 1 (a workload with at least one replica is skipped
with no mutating call), the target never decreases the current count, and a
workload with current at least 1 keeps its count. -/
theorem C4_start_preserves_replicas :
    (∀ ws : List Workload,
      start_scale_patches ws =
        (ws.filter fun w => w.replicas.getD 0 == 0).map fun w => (w.name, 1)) ∧
    (∀ c : Nat, c ≤ start_scale_target c) ∧
    (∀ c : Nat, start_scale_target (c + 1) = c + 1) := by
  refine ⟨?_, ?_, ?_⟩
  · intro ws
    induction ws with
    | nil => rfl
    | cons w rest ih =>
      simp only [start_scale_patches, start_scale_target, List.filter_cons,
        List.map_cons]
      cases h : w.replicas.getD 0 with
      | zero => simp [h, ih]
      | succ n =>
        have hmax : max 1 (n + 1) = n + 1 := by omega
        simp [h, ih, hmax]
  · intro c
    exact Nat.le_max_right 1 c
  · intro c
    simp [start_scale_target]

/-- C5: when the scheduler actually invokes a start or stop action, the
dispatcher acknowledges it with 202, but the scheduler treats only HTTP 200
as success and skips `log_operation` — so an accepted (202) action is never
written to the operation log, contradicting the claim that every invoked
action is logged. This theorem evaluates both modules at the failing input. -/
theorem C5_accepted_action_not_logged :
    controller_dispatch_start false true = 202 ∧
    scheduler_logs_action true "start"
      (PostOutcome.status (controller_dispatch_start false true)) = false ∧
    controller_dispatch_stop true = 202 ∧
    scheduler_logs_action true "stop"
      (PostOutcome.status (controller_dispatch_stop true)) = false := by
  decide

/-- C6 counterexample: a schedule item with no `enabled` key at all is read
back with `enabled = False` (the default is false, not true), and even inside
the morning start window with the probe reporting DOWN the scheduler takes no
action for it: such an application is skipped, not evaluated. -/
theorem C6_counterexample :
    (schedule_from_raw
      { enabled := none, onT := some "09:00", off := some "18:00",
        weekdays := some [] }).enabled = false ∧
    should_trigger_action
      (some (schedule_from_raw
        { enabled := none, onT := some "09:00", off := some "18:00",
          weekdays := some [] }))
      0 32520 false = none := by
  exact ⟨rfl, rfl⟩

/-- C6 (amended): the per-app `enabled` flag defaults to FALSE when absent:
an application whose schedule record has no `enabled` value is skipped by
`should_trigger_action` at every instant; only an application explicitly
enabled is evaluated against the firing windows. -/
theorem C6_enabled_defaults_false (item : RawSchedule)
    (h : item.enabled = none) :
    (schedule_from_raw item).enabled = false ∧
    ∀ (wd : Fin 7) (nowSec : Nat) (isUp : Bool),
      should_trigger_action (some (schedule_from_raw item)) wd nowSec isUp =
        none := by
  constructor
  · simp [schedule_from_raw, h]
  · intro wd nowSec isUp
    simp [should_trigger_action, schedule_from_raw, h]

/-- C6 witness: the amended theorem applied to a concrete schedule record
lacking the `enabled` key. -/
theorem C6_enabled_defaults_false_witness :
    (schedule_from_raw
      { enabled := none, onT := some "08:30", off := some "19:00",
        weekdays := some ["Mon"] }).enabled = false ∧
    should_trigger_action
      (some (schedule_from_raw
        { enabled := none, onT := some "08:30", off := some "19:00",
          weekdays := some ["Mon"] }))
      2 30720 false = none := by
  refine ⟨(C6_enabled_defaults_false _ rfl).1, ?_⟩
  exact (C6_enabled_defaults_false _ rfl).2 2 30720 false

/-- C10: an empty (or missing) weekdays list matches every day of the week:
`is_weekday_included` returns true for all seven weekdays when the list is
empty, a missing `weekdays` key normalizes to the empty list, and for such a
schedule the trigger decision is the same on every day of the week, so both
firing windows are evaluated every day. -/
theorem C10_empty_weekdays_match_all (s : Schedule) (item : RawSchedule)
    (wd wd2 : Fin 7) (nowSec : Nat) (isUp : Bool) :
    is_weekday_included [] wd = true ∧
    (item.weekdays = none → (schedule_from_raw item).weekdays = []) ∧
    (s.weekdays = [] →
      should_trigger_action (some s) wd nowSec isUp =
        should_trigger_action (some s) wd2 nowSec isUp) := by
  refine ⟨rfl, ?_, ?_⟩
  · intro h
    simp [schedule_from_raw, h]
  · intro h
    simp [should_trigger_action, h, is_weekday_included]

/-- C10 witness: the theorem applied at concrete inputs (Thursday versus
Sunday, a record without a weekdays key, an enabled schedule with an empty
weekday list). -/
theorem C10_empty_weekdays_match_all_witness :
    is_weekday_included [] 3 = true ∧
    (schedule_from_raw
      { enabled := some true, onT := some "09:00", off := some "18:00",
        weekdays := none }).weekdays = [] ∧
    should_trigger_action
      (some { enabled := true, onT := some "09:00", off := some "18:00",
              weekdays := [] }) 3 32520 false =
      should_trigger_action
        (some { enabled := true, onT := some "09:00", off := some "18:00",
                weekdays := [] }) 6 32520 false := by
  have h := C10_empty_weekdays_match_all
    { enabled := true, onT := some "09:00", off := some "18:00",
      weekdays := [] }
    { enabled := some true, onT := some "09:00", off := some "18:00",
      weekdays := none } 3 6 32520 false
  exact ⟨h.1, h.2.1 rfl, h.2.2 rfl⟩

theorem http_check_loop_up_iff (probe : String → HeadOutcome)
    (urls : List String) :
    ((http_check_loop probe urls).1 = "UP" ↔
      (http_check_loop probe urls).2.1 = 200) := by
  induction urls with
  | nil => simp [http_check_loop]
  | cons u rest ih =>
    simp only [http_check_loop]
    cases hp : probe u with
    | ok code lat =>
      by_cases h : code = 200
      · subst h; simp
      · have hb : (code == 200) = false := by simpa using h
        simp only [hb, if_false]
        have hne : ¬ ("DOWN" : String) = "UP" := by decide
        exact iff_of_false hne h
    | timeout =>
      cases rest with
      | nil => simp
      | cons v vs => simpa using ih
    | connError =>
      cases rest with
      | nil => simp
      | cons v vs => simpa using ih
    | sslError => exact ih
    | exc =>
      cases rest with
      | nil => simp
      | cons v vs => simpa using ih

/-- C3 counterexample: at HTTP code 405 the health-monitor verdict is UP even
though 405 is not in the default acceptance set, and nothing in the code reads
a configured acceptance set: the api-handler live probe (hardcoded to 200
only) simultaneously reports DOWN for the same code, so the reported overall
status is not `UP iff code in the configured acceptance set (default 200)`. -/
theorem C3_counterexample :
    determine_final_status 405 = "UP" ∧
    spec_default_acceptance.contains 405 = false ∧
    (check_http_status_live (some "app.example.com")
      (fun _ => HeadOutcome.ok 405 12)).1 = "DOWN" ∧
    (check_http_status_live (some "app.example.com")
      (fun _ => HeadOutcome.ok 405 12)).2.1 = 405 := by
  decide

/-- C3 (amended): each component computes its overall verdict from the HTTP
code alone, against its own hardcoded acceptance set: the api-handler live
probe reports UP iff the returned code is exactly 200, and the health-monitor
final status is UP iff the code is 200 or 405, in both cases regardless of the
postgres, neo4j, or nodegroup component states (the health-monitor verdict is
literally independent of them). -/
theorem C3_http_authority (hostname : Option String)
    (probe : String → HeadOutcome) (code : Nat)
    (pg neo ng pg2 neo2 ng2 : String) :
    ((check_http_status_live hostname probe).1 = "UP" ↔
      (check_http_status_live hostname probe).2.1 = 200) ∧
    ((determine_app_status code pg neo ng).1 = "UP" ↔
      (code = 200 ∨ code = 405)) ∧
    (determine_app_status code pg neo ng).1 =
      (determine_app_status code pg2 neo2 ng2).1 := by
  refine ⟨?_, ?_, rfl⟩
  · cases hostname with
    | none => simp [check_http_status_live]
    | some h =>
      by_cases h0 : h = ""
      · subst h0; simp [check_http_status_live]
      · have hb : (h == "") = false := by simpa using h0
        simp only [check_http_status_live, hb, if_false]
        exact http_check_loop_up_iff probe (http_urls h)
  · simp only [determine_app_status, determine_final_status]
    by_cases h : code = 200 ∨ code = 405
    · have hb : (code == 200 || code == 405) = true := by
        rcases h with h | h <;> subst h <;> simp
      simp [hb, h]
    · have hb : (code == 200 || code == 405) = false := by
        push_neg at h
        simp [h.1, h.2]
      simp only [hb, if_false]
      exact iff_of_false (by decide) h

/-- C2 counterexample: a co-tenant (`beta`) of the shared endpoint whose HEAD
probes all time out is treated as DOWN, not UP, and consequently the endpoint
is reported NOT in use even though every probe was ambiguous — the opposite
of the claimed fail-closed treatment. -/
theorem C2_counterexample :
    cotenvTimeout.probe "https://beta.example.com" = HeadOutcome.timeout ∧
    cotenvTimeout.probe "http://beta.example.com" = HeadOutcome.timeout ∧
    check_app_status_live "beta.example.com" cotenvTimeout = false ∧
    get_sharing_applications "10.0.0.5" "postgres" "alpha.example.com"
      cotenvTimeout = ["beta.example.com"] ∧
    is_shared_resource_in_use "10.0.0.5" "postgres" "alpha.example.com"
      cotenvTimeout = false := by
  exact ⟨rfl, rfl, rfl, rfl, rfl⟩

/-- C2 (amended): a co-tenant whose probes all fail (timeout, connection
error, or any non-200 outcome) is treated as DOWN; the conservative
treated-as-UP branch fires only when reading the co-tenant record from the
registry raises. The resolver therefore reports in-use on registry-read
ambiguity but not on probe ambiguity. -/
theorem C2_probe_error_is_down (env : CotenantEnv) (nameE nameT hn : String)
    (app : AppRecord) (rest : List String)
    (hE : env.getApp nameE = Except.error ())
    (hT : env.getApp nameT = Except.ok (some app))
    (hh : app.hostnames = hn :: rest)
    (p1 : head_is_200 (env.probe ("https://" ++ hn)) = false)
    (p2 : head_is_200 (env.probe ("http://" ++ hn)) = false) :
    check_app_status_live nameE env = true ∧
    check_app_status_live nameT env = false ∧
    are_any_apps_running [nameE] env = true ∧
    are_any_apps_running [nameT] env = false := by
  have h1 : check_app_status_live nameE env = true := by
    simp [check_app_status_live, hE]
  have h2 : check_app_status_live nameT env = false := by
    simp [check_app_status_live, hT, hh, p1, p2]
  exact ⟨h1, h2, by simp [are_any_apps_running, h1],
    by simp [are_any_apps_running, h2]⟩

/-- C2 witness: the amended theorem applied to a concrete environment with
one raising registry read and one connection-refused co-tenant. -/
theorem C2_probe_error_is_down_witness :
    check_app_status_live "err.example.com" cotenvMixed = true ∧
    check_app_status_live "gamma.example.com" cotenvMixed = false ∧
    are_any_apps_running ["err.example.com"] cotenvMixed = true ∧
    are_any_apps_running ["gamma.example.com"] cotenvMixed = false :=
  C2_probe_error_is_down cotenvMixed "err.example.com" "gamma.example.com"
    "gamma.example.com" appGamma [] rfl rfl rfl rfl rfl

/-- C1 counterexample: `alpha` and `beta` share postgres host 10.0.0.5 and
the resolver reports the endpoint in use (`beta` answers 200 at decision
time), yet because `alpha`'s persisted `shared_resources` annotation is
empty, `stop_application` takes the dedicated branch, never consults the
resolver, and issues the stop-VM call for the host's instance; no warning is
recorded at all. -/
theorem C1_counterexample :
    is_shared_resource_in_use "10.0.0.5" "postgres" "alpha.example.com"
      envC1.cotenv = true ∧
    envC1.ec2ByIp "10.0.0.5" = Except.ok ["i-0pgdb"] ∧
    stop_application "alpha.example.com" envC1 =
      Except.ok (stop_found_outcome "alpha.example.com" appA envC1) ∧
    (stop_found_outcome "alpha.example.com" appA envC1).stopCalls =
      ["i-0pgdb"] ∧
    (stop_found_outcome "alpha.example.com" appA envC1).warnings = [] := by
  exact ⟨rfl, rfl, rfl, rfl, rfl⟩

/-- C1 (amended): the stop interlock is gated on the persisted
`shared_resources` annotation. When the annotation lists the postgres host H
(with its recorded co-tenants) and the resolver reports the endpoint in use,
the postgres step issues no stop-VM call, the warnings contain the
`database NOT stopped` message, and the blocking warning names every recorded
co-tenant (in particular B). When the annotation does not list H the database
is stopped as dedicated without consulting the resolver. -/
theorem C1_shared_db_interlock (appName H B : String) (env : StopEnv)
    (app : AppRecord) (entry : SharedEntry)
    (hGet : env.cotenv.getApp appName = Except.ok (some app))
    (hHost : app.postgresHost = some H)
    (hEntry : entry ∈ app.sharedResources.postgres)
    (hEH : entry.host = some H)
    (hB : B ∈ entry.linkedApps)
    (hUse : is_shared_resource_in_use H "postgres" appName env.cotenv = true) :
    ∃ out, stop_application appName env = Except.ok out ∧
      out.pgStopCalls = [] ∧
      ("PostgreSQL " ++ H ++
        " is shared with active applications - database NOT stopped") ∈
        out.warnings ∧
      ∃ msg, msg ∈ out.warnings ∧ strHas msg B = true := by
  have hShared : is_database_shared app "postgres" = true := by
    simp only [is_database_shared, beq_self_eq_true, if_true]
    rw [hHost]
    rw [List.any_eq_true]
    exact ⟨entry, hEntry, by rw [hEH]; simp⟩
  have hpg : stop_postgres_step appName app env =
      (["PostgreSQL " ++ H ++
        " is shared with active applications - database NOT stopped"],
       [], [], 0) := by
    simp [stop_postgres_step, hHost, hShared, hUse]
  refine ⟨stop_found_outcome appName app env, ?_, ?_, ?_, ?_⟩
  · simp [stop_application, hGet]
  · simp [stop_found_outcome, hpg]
  · simp [stop_found_outcome, hpg]
  · refine ⟨shared_block_message entry, ?_, ?_⟩
    · simp only [stop_found_outcome]
      apply List.mem_append_left
      apply List.mem_append_left
      apply List.mem_append_left
      unfold check_shared_resources_blocking
      apply List.mem_append_left
      exact List.mem_map_of_mem _ hEntry
    · obtain ⟨p, s, hp⟩ := joinComma_split entry.linkedApps B hB
      apply strHas_of_split _ _
        (("Database " ++ shared_entry_identifier entry ++
          " is shared with ").data ++ p)
        (s ++ (". Cannot be stopped safely.").data)
      simp [shared_block_message, String.data_append, hp, List.append_assoc]

/-- C1 witness: the amended theorem applied to the annotated `alpha` with
`beta` recorded as co-tenant and live at decision time. -/
theorem C1_shared_db_interlock_witness :
    ∃ out, stop_application "alpha.example.com" envC1w = Except.ok out ∧
      out.pgStopCalls = [] ∧
      ("PostgreSQL " ++ "10.0.0.5" ++
        " is shared with active applications - database NOT stopped") ∈
        out.warnings ∧
      ∃ msg, msg ∈ out.warnings ∧
        strHas msg "beta.example.com" = true :=
  C1_shared_db_interlock "alpha.example.com" "10.0.0.5" "beta.example.com"
    envC1w appAshared entryW rfl rfl (by decide) rfl (by decide) rfl

/-- C9: whenever the registry lookup finds the application, the stop run ends
with the unconditional registry write setting `status = DOWN` and
`final_app_status = DOWN`, as the last registry write of the run — with no
hypothesis on the phase outcomes, so in particular also when earlier phases
recorded errors; the persisted hint is never rolled back. -/
theorem C9_final_status_write (appName : String) (env : StopEnv)
    (app : AppRecord)
    (hGet : env.cotenv.getApp appName = Except.ok (some app)) :
    ∃ out, stop_application appName env = Except.ok out ∧ out.found = true ∧
      ∃ pre, out.registryWrites =
        pre ++ [[("status", "DOWN"), ("final_app_status", "DOWN")]] := by
  refine ⟨stop_found_outcome appName app env, ?_, rfl, ?_⟩
  · simp [stop_application, hGet]
  · exact ⟨_, rfl⟩

/-- C9 witness: the theorem applied to a run whose workload scale-down phase
raised (the errors list is nonempty), where the final DOWN write still
happens. -/
theorem C9_final_status_write_witness :
    (∃ out, stop_application "alpha.example.com" envC9 = Except.ok out ∧
      out.found = true ∧
      ∃ pre, out.registryWrites =
        pre ++ [[("status", "DOWN"), ("final_app_status", "DOWN")]]) ∧
    (stop_found_outcome "alpha.example.com" appA envC9).errors ≠ [] :=
  ⟨C9_final_status_write "alpha.example.com" envC9 appA rfl, by decide⟩

/-- C7 counterexample: when constructing the CoreV1Api client raises, the
raise escapes to the generic handler at the bottom of `check_pod_state_live`,
which substitutes the zero tally WITHOUT any error string — contradicting the
claim that a failing pod probe always records an error string on the pod
tally. (The aggregation itself still completes.) -/
theorem C7_counterexample :
    check_pod_state_live "myapp" true false (Except.ok []) =
      pods_zero none none ∧
    (check_pod_state_live "myapp" true false (Except.ok [])).error = none ∧
    (check_pod_state_live "myapp" true false (Except.ok [])).total = 0 := by
  exact ⟨rfl, rfl, rfl⟩

/-- C7 (amended): the aggregation always returns a complete composite
document; a failing postgres or neo4j probe substitutes state `stopped`, a
failing HTTP probe substitutes DOWN with code 0, and a failing pod future
substitutes the zero tally with a `Pod check failed` error string. Inside the
live pod probe, the empty-namespace, missing-client, RBAC and generic API
error branches each substitute the zero tally with an error string, but the
generic-exception fallback (a raise outside the listing call, e.g. client
construction) substitutes the zero tally with NO error string. -/
theorem C7_probe_failures_safe (appName e1 e2 e3 e4 ns : String)
    (k8sOk clientOk : Bool) (lr : Except K8sApiError (List Pod))
    (er eo : K8sApiError)
    (hns : (ns == "") = false)
    (hr : k8s_error_is_rbac er = true)
    (ho : k8s_error_is_rbac eo = false) :
    (get_app_live_status appName (Except.error e1) (Except.error e2)
      (Except.error e3) (Except.error e4)).postgresState = "stopped" ∧
    (get_app_live_status appName (Except.error e1) (Except.error e2)
      (Except.error e3) (Except.error e4)).neo4jState = "stopped" ∧
    (get_app_live_status appName (Except.error e1) (Except.error e2)
      (Except.error e3) (Except.error e4)).httpStatus = "DOWN" ∧
    (get_app_live_status appName (Except.error e1) (Except.error e2)
      (Except.error e3) (Except.error e4)).httpCode = 0 ∧
    (get_app_live_status appName (Except.error e1) (Except.error e2)
      (Except.error e3) (Except.error e4)).httpLatencyMs = none ∧
    (get_app_live_status appName (Except.error e1) (Except.error e2)
      (Except.error e3) (Except.error e4)).pods =
      pods_zero (some ("Pod check failed: " ++ str_first100 e4)) none ∧
    (check_pod_state_live "" k8sOk clientOk lr).error =
      some "Namespace is empty" ∧
    (check_pod_state_live ns false clientOk lr).error =
      some "Kubernetes client not initialized" ∧
    (check_pod_state_live ns true true (Except.error er)).error =
      some ("RBAC permission denied (HTTP " ++ k8s_error_status_text er ++ ")") ∧
    (check_pod_state_live ns true true (Except.error eo)).error =
      some ("Kubernetes API error: " ++ str_first100 eo.msg) ∧
    (check_pod_state_live ns true false lr).error = none := by
  refine ⟨rfl, rfl, rfl, rfl, rfl, rfl, rfl, ?_, ?_, ?_, ?_⟩
  · simp [check_pod_state_live, hns, pods_zero]
  · simp [check_pod_state_live, hns, hr, pods_zero]
  · simp [check_pod_state_live, hns, ho, pods_zero]
  · simp [check_pod_state_live, hns, pods_zero]

/-- C7 witness: the amended theorem applied to concrete failing futures, a
403 API error, and an unclassified API error. -/
theorem C7_probe_failures_safe_witness :
    (get_app_live_status "svc.example.com" (Except.error "pg probe timeout")
      (Except.error "neo probe timeout") (Except.error "http probe timeout")
      (Except.error "pods probe timeout")).postgresState = "stopped" ∧
    (get_app_live_status "svc.example.com" (Except.error "pg probe timeout")
      (Except.error "neo probe timeout") (Except.error "http probe timeout")
      (Except.error "pods probe timeout")).neo4jState = "stopped" ∧
    (get_app_live_status "svc.example.com" (Except.error "pg probe timeout")
      (Except.error "neo probe timeout") (Except.error "http probe timeout")
      (Except.error "pods probe timeout")).httpStatus = "DOWN" ∧
    (get_app_live_status "svc.example.com" (Except.error "pg probe timeout")
      (Except.error "neo probe timeout") (Except.error "http probe timeout")
      (Except.error "pods probe timeout")).httpCode = 0 ∧
    (get_app_live_status "svc.example.com" (Except.error "pg probe timeout")
      (Except.error "neo probe timeout") (Except.error "http probe timeout")
      (Except.error "pods probe timeout")).httpLatencyMs = none ∧
    (get_app_live_status "svc.example.com" (Except.error "pg probe timeout")
      (Except.error "neo probe timeout") (Except.error "http probe timeout")
      (Except.error "pods probe timeout")).pods =
      pods_zero (some ("Pod check failed: " ++
        str_first100 "pods probe timeout")) none ∧
    (check_pod_state_live "" true true (Except.ok [])).error =
      some "Namespace is empty" ∧
    (check_pod_state_live "prod" false true (Except.ok [])).error =
      some "Kubernetes client not initialized" ∧
    (check_pod_state_live "prod" true true
      (Except.error { status := some 403, msg := "Forbidden" })).error =
      some ("RBAC permission denied (HTTP " ++
        k8s_error_status_text { status := some 403, msg := "Forbidden" } ++ ")") ∧
    (check_pod_state_live "prod" true true
      (Except.error { status := none, msg := "boom" })).error =
      some ("Kubernetes API error: " ++
        str_first100 (K8sApiError.msg { status := none, msg := "boom" })) ∧
    (check_pod_state_live "prod" true false (Except.ok [])).error = none :=
  C7_probe_failures_safe "svc.example.com" "pg probe timeout"
    "neo probe timeout" "http probe timeout" "pods probe timeout" "prod"
    true true (Except.ok [])
    { status := some 403, msg := "Forbidden" }
    { status := none, msg := "boom" } rfl rfl (by decide)

/-- C8 counterexample: `update_app_status` (a registry write path) applied to
a name absent from the registry CREATES a record carrying only the key and
the status attribute — its hostnames attribute is absent — because DynamoDB
`update_item` upserts. So the registry write paths do not all reject
hostname-less records. -/
theorem C8_counterexample :
    update_app_status [] "ghost.example.com" "DOWN" =
      [{ appName := "ghost.example.com", namespc := none, hostnames := none,
         status := some "DOWN" }] ∧
    ∃ it, it ∈ update_app_status [] "ghost.example.com" "DOWN" ∧
      it.hostnames = none := by
  refine ⟨rfl, ?_⟩
  exact ⟨_, List.mem_singleton_self _, rfl⟩

/-- C8 (amended): the discovery write path `update_registry` rejects a record
whose hostname list is empty — it writes nothing and returns false — and
every record it does write carries a nonempty hostname list; but the
hint-field write paths (`update_item`, e.g. `update_app_status`) perform no
hostname validation and, applied to a key absent from the registry, create a
record without hostnames. -/
theorem C8_registry_hostname_guard (reg regU : List DynItem)
    (appName namespc : String) (hostnamesE hostnames : List String)
    (ngDesireds : List Nat) (key st : String)
    (hE : hostnamesE = [])
    (hNE : hostnames ≠ [])
    (hKey : (regU.any fun r => r.appName == key) = false) :
    update_registry reg appName namespc hostnamesE ngDesireds = (false, reg) ∧
    (update_registry reg appName namespc hostnames ngDesireds).1 = true ∧
    (∃ hs, hs ≠ [] ∧
      { appName := appName, namespc := some namespc, hostnames := some hs,
        status := some (if ngDesireds.any fun d => d > 0 then "UP" else "DOWN") } ∈
        (update_registry reg appName namespc hostnames ngDesireds).2) ∧
    (∃ it, it ∈ update_app_status regU key st ∧ it.hostnames = none) := by
  have hne : dedup_sort_hostnames hostnames ≠ [] := by
    obtain ⟨a, ha⟩ := List.exists_mem_of_ne_nil hostnames hNE
    have hlen : (dedup_sort_hostnames hostnames).length =
        hostnames.toFinset.card := Finset.length_sort _
    have hpos : 0 < hostnames.toFinset.card :=
      Finset.card_pos.mpr ⟨a, List.mem_toFinset.mpr ha⟩
    intro hnil
    rw [hnil] at hlen
    simp at hlen
    omega
  have hb : (dedup_sort_hostnames hostnames).isEmpty = false := by
    cases hd : dedup_sort_hostnames hostnames with
    | nil => exact absurd hd hne
    | cons x xs => rfl
  refine ⟨?_, ?_, ?_, ?_⟩
  · subst hE
    simp [update_registry, dedup_sort_hostnames, Finset.sort_empty]
  · simp [update_registry, hb]
  · refine ⟨dedup_sort_hostnames hostnames, hne, ?_⟩
    simp [update_registry, hb, dyn_put_item]
  · have hmem :
        ({ appName := key, namespc := none, hostnames := none, status := some st } : DynItem) ∈
          update_app_status regU key st := by
      simp [update_app_status, hKey]
    exact ⟨_, hmem, rfl⟩

/-- C8 witness: the amended theorem applied to an empty hostname list, a
singleton hostname list, and a registry without the updated key. -/
theorem C8_registry_hostname_guard_witness :
    update_registry [] "alpha.example.com" "ns-a" [] [2] = (false, []) ∧
    (update_registry [] "alpha.example.com" "ns-a" ["alpha.example.com"]
      [2]).1 = true ∧
    (∃ hs, hs ≠ [] ∧
      { appName := "alpha.example.com", namespc := some "ns-a",
        hostnames := some hs,
        status := some (if [2].any fun d => d > 0 then "UP" else "DOWN") } ∈
        (update_registry [] "alpha.example.com" "ns-a" ["alpha.example.com"]
          [2]).2) ∧
    (∃ it, it ∈ update_app_status [] "ghost.example.com" "UP" ∧
      it.hostnames = none) :=
  C8_registry_hostname_guard [] [] "alpha.example.com" "ns-a" []
    ["alpha.example.com"] [2] "ghost.example.com" "UP" rfl (by decide) rfl
